import Mathlib

/-!
Verification of the PoultriScan acquisition-and-verdict pipeline.

Shallow embedding conventions:
* Python floats are embedded as exact rationals (`ℚ`); the program only
  performs field arithmetic, comparisons, `min`/`max` clamps and `int`
  truncation on them.
* Python `int(x)` truncates toward zero; it is embedded as `pyInt`.
* Dictionaries keyed by the 18 spectral channel names `AS7265X_ch1..18`
  are embedded as total functions `Fin 18 → ℚ` (index `i` holds channel
  `i+1`); the four gas sensors as `Fin 4 → ℚ`.
* `math.sqrt` appears only inside `calculate_multidimensional_distance`,
  whose result is only ever *compared* against another such distance.
  Since `Real.sqrt` is strictly monotone on nonnegatives (proved below in
  `sqrt_lt_sqrt_iff_of_nonneg`), the comparison is embedded on the squared
  sums, which keeps every definition computable.
-/

/-- Python `int(x)`: truncation toward zero of a rational. -/
def pyInt (x : ℚ) : ℤ := if 0 ≤ x then ⌊x⌋ else ⌈x⌉

/-- The calibration table computed by `load_calibration` in
`Sensors/data_model.py`: safety limits, the two 18-channel spectral
centroids, and the biochemical reference maxima. -/
structure Calibration where
  fresh_ch2_min : ℚ
  fresh_mq137_max : ℚ
  fresh_mq3_max : ℚ
  mean_spectral_fresh : Fin 18 → ℚ
  mean_spectral_semi : Fin 18 → ℚ
  max_redness : ℚ
  max_luma : ℚ

/-- The constant `WHC_BASE = 88.0` of `Sensors/data_model.py`. -/
def WHC_BASE : ℚ := 88

/-- The fields of the `raw_readings` dict that `calculate_group_scores`
extracts: the two gas voltages it uses and the 18 spectral channels
(`raw_readings.get(..., 0)` supplies a value for every key, so a total
record is a faithful model). `spectrum i` is channel `i+1`. -/
structure RawReadings where
  mq137 : ℚ
  mq3 : ℚ
  spectrum : Fin 18 → ℚ

/-- Squared Euclidean distance between two 18-channel vectors.  The source
function `calculate_multidimensional_distance` returns
`math.sqrt` of this sum (both vectors always have length 18 at the call
sites, so its length-mismatch `inf` branch is dead); the classifier only
compares two such distances, and `sqrt` is strictly monotone on
nonnegatives, so embedding the squared sum preserves the comparison. -/
def calculate_multidimensional_distance_sq (v w : Fin 18 → ℚ) : ℚ :=
  ∑ i, (v i - w i) ^ 2

/-- The classification-score branch of `calculate_group_scores`
(`Sensors/data_model.py`): channel-2 floor, then gas limits, then
nearest-centroid on all 18 channels. -/
def classification_score (cal : Calibration) (r : RawReadings) : ℚ :=
  if r.spectrum 1 < cal.fresh_ch2_min then 25
  else if r.mq137 > cal.fresh_mq137_max ∨ r.mq3 > cal.fresh_mq3_max then 35
  else if calculate_multidimensional_distance_sq r.spectrum cal.mean_spectral_fresh <
          calculate_multidimensional_distance_sq r.spectrum cal.mean_spectral_semi
       then 95 else 65

/-- `myo_est` of `calculate_group_scores`:
`min(max((current_red / ref_red) * 2.5, 0.1), 3.5)` where `current_red`
averages channels 9, 10, 11 and `ref_red` is `MAX_REDNESS` guarded to
`500` when nonpositive. -/
def myo_est (cal : Calibration) (r : RawReadings) : ℚ :=
  let current_red := (r.spectrum 8 + r.spectrum 9 + r.spectrum 10) / 3
  let ref_red := if cal.max_redness > 0 then cal.max_redness else 500
  min (max ((current_red / ref_red) * (5 / 2)) (1 / 10)) (7 / 2)

/-- `fat_est` of `calculate_group_scores`:
`min(max((current_luma / ref_luma) * 6.0, 0.5), 8.0)` where `current_luma`
averages channels 2, 5, 7 and `ref_luma` is `MAX_LUMA` guarded to `2000`
when nonpositive. -/
def fat_est (cal : Calibration) (r : RawReadings) : ℚ :=
  let current_luma := (r.spectrum 1 + r.spectrum 4 + r.spectrum 6) / 3
  let ref_luma := if cal.max_luma > 0 then cal.max_luma else 2000
  min (max ((current_luma / ref_luma) * 6) (1 / 2)) 8

/-- `whc_est` of `calculate_group_scores`:
`min(max(WHC_BASE - (mq137 / (ref_gas * 1.5)) * 20.0, 50.0), 95.0)` where
`ref_gas` is `FRESH_MQ137_MAX` guarded to `1.5` when nonpositive. -/
def whc_est (cal : Calibration) (r : RawReadings) : ℚ :=
  let ref_gas := if cal.fresh_mq137_max > 0 then cal.fresh_mq137_max else 3 / 2
  min (max (WHC_BASE - (r.mq137 / (ref_gas * (3 / 2))) * 20) 50) 95

/-- `calculate_group_scores` of `Sensors/data_model.py`: returns
`(enose_index, whc_index, fac_index, myoglobin_index, classification_score)`
exactly as the source tuple does; the four indices and the final score go
through Python `int`. -/
def calculate_group_scores (cal : Calibration) (r : RawReadings) :
    ℤ × ℤ × ℤ × ℤ × ℤ :=
  let enose_index := max 0 (min 100 (pyInt (100 - r.mq137 * 30)))
  let whc_index := pyInt (whc_est cal r)
  let fac_index := pyInt ((fat_est cal r / 8) * 100)
  let myoglobin_index := pyInt ((myo_est cal r / (7 / 2)) * 100)
  (enose_index, whc_index, fac_index, myoglobin_index,
    pyInt (classification_score cal r))

/-- `calculate_overall_quality` of `Sensors/data_model.py`: maps the final
score to `(category, color_tag, grade_text)`. -/
def calculate_overall_quality (final_score : ℤ) : String × String × String :=
  if final_score ≥ 80 then ("FRESH", "high", "Grade A")
  else if final_score ≥ 50 then ("SEMI-FRESH", "normal", "Grade B")
  else ("SPOILT", "low", "Grade C")

/-- The 18-zero spectral placeholder `AS7265X_PLACEHOLDER_ZEROS` that
`read_spectrometer` in `Sensors/as7265x.py` returns when any channel read
fails. -/
def AS7265X_PLACEHOLDER_ZEROS : Fin 18 → ℚ := fun _ => 0

/-- Calibration table of the Fresh-sample end-to-end scenario:
`fresh_ch2_min = 100`, `fresh_mq137_max = 1.5`, `fresh_mq3_max = 0.8`,
Fresh centroid constant 200, Semi-Fresh centroid constant 400,
`max_redness = 300`, `max_luma = 250`. -/
def freshScenarioCal : Calibration where
  fresh_ch2_min := 100
  fresh_mq137_max := 3 / 2
  fresh_mq3_max := 4 / 5
  mean_spectral_fresh := fun _ => 200
  mean_spectral_semi := fun _ => 400
  max_redness := 300
  max_luma := 250

/-- Input frame of the Fresh-sample scenario: all 18 channels 210,
`mq137 = 0.5`, `mq3 = 0.3`. -/
def freshScenarioReading : RawReadings where
  mq137 := 1 / 2
  mq3 := 3 / 10
  spectrum := fun _ => 210

/-- `PurgeWorker._is_at_baseline` (`Training/continuous_tab.py`): a gas
value is at baseline when it lies within the `±tolerance_val` band around
its target, except that a zero target requires the current value to be
exactly zero. -/
def is_at_baseline (tolerance_val current_val target_val : ℚ) : Bool :=
  if target_val = 0 then current_val == 0
  else
    let low_bound := target_val * (1 - tolerance_val)
    let high_bound := target_val * (1 + tolerance_val)
    decide (low_bound ≤ current_val ∧ current_val ≤ high_bound)

/-- The all-sensors check of one `PurgeWorker.run` iteration: every one of
the four gas sensors is at its baseline target. -/
def all_at_baseline (tolerance_val : ℚ) (targets current : Fin 4 → ℚ) : Bool :=
  (List.finRange 4).all fun k => is_at_baseline tolerance_val (current k) (targets k)

/-- How an invocation of the `PurgeWorker.run` loop ends. -/
inductive PurgeOutcome where
  /-- The loop broke out at check `k` with the running flag still set, so
  the `finished` signal is emitted (the purge is complete / clean). -/
  | finished (k : ℕ) : PurgeOutcome
  /-- The while condition observed `_is_running = false` before check `k`
  (operator stop): only the cancellation status line is emitted. -/
  | cancelled (k : ℕ) : PurgeOutcome
  /-- `read_enose` raised at check `k`: only the `error` signal is
  emitted. -/
  | errored (k : ℕ) : PurgeOutcome
  /-- The given number of checks elapsed with the loop still going. -/
  | runningOut : PurgeOutcome
deriving DecidableEq

/-- The `PurgeWorker.run` loop (`Training/continuous_tab.py`), starting at
check index `k` with `fuel` remaining checks observed.  `readings j` is
the `read_enose` result at check `j`; `running j` is the `_is_running`
flag when the while condition is evaluated for check `j` (stop() flips it
between iterations); `failAt j` injects a read exception at check `j`.
The loop body has no timeout test of any kind: it can only break on
convergence, exit on the flag, or raise. -/
def purgeWorkerRun (tolerance_val : ℚ) (targets : Fin 4 → ℚ)
    (readings : ℕ → Fin 4 → ℚ) (running failAt : ℕ → Bool) :
    ℕ → ℕ → PurgeOutcome
  | _, 0 => .runningOut
  | k, fuel + 1 =>
    if running k = false then .cancelled k
    else if failAt k then .errored k
    else if all_at_baseline tolerance_val targets (readings k) then .finished k
    else purgeWorkerRun tolerance_val targets readings running failAt (k + 1) fuel

/-- Sleep seconds accumulated before check `k` of the purge loop: the
worker sleeps `interval_sec = 3` after every failed check. -/
def purgeElapsedBeforeCheck (k : ℕ) : ℕ := 3 * k

/-- The constant `SMART_PURGE_TIMEOUT_S = 60` of `dashboard_tab.py`. -/
def SMART_PURGE_TIMEOUT_S : ℚ := 60

/-- Stop reason passed to `DashboardTab.stop_smart_purge`. -/
inductive SmartPurgeReason where
  /-- The updates arrived later than the 60-second deadline. -/
  | timedOut : SmartPurgeReason
  /-- Every gas reading is at or below its baseline threshold. -/
  | chamberClear : SmartPurgeReason
deriving DecidableEq

/-- `DashboardTab.on_purge_update` (`dashboard_tab.py`): on each readings
update of the dashboard smart purge, stop with TIMEOUT when the elapsed
time exceeds 60 s; otherwise stop with CLEAN when every gas reading is at
or below its baseline value (a zero or missing baseline entry is replaced
by 0.1); otherwise keep purging (`none`). -/
def on_purge_update (elapsed : ℚ) (current_readings baseline_data : Fin 4 → ℚ) :
    Option SmartPurgeReason :=
  if elapsed > SMART_PURGE_TIMEOUT_S then some .timedOut
  else if (List.finRange 4).all (fun k =>
      let base_val := if baseline_data k = 0 then 1 / 10 else baseline_data k
      decide (current_readings k ≤ base_val)) then some .chamberClear
  else none

/-- The Qt signals relevant to the worker exit-path contract. -/
inductive Sig where
  /-- An `update_status` log line. -/
  | status : Sig
  /-- A `raw_data_update` emission. -/
  | raw : Sig
  /-- An `averaged_update` emission. -/
  | avg : Sig
  /-- An `error` emission. -/
  | err : Sig
  /-- A `finished` emission. -/
  | fin : Sig
deriving DecidableEq

/-- The signal trace of one `PurgeWorker.run` invocation, mirroring the
source control flow: a cleared running flag exits the loop and emits only
the cancellation status line; a raised read exception emits only `error`;
otherwise each check emits its "Purging..." status and, on convergence,
the completion status followed by the one `finished` emission. -/
def purgeWorkerSignals (tolerance_val : ℚ) (targets : Fin 4 → ℚ)
    (readings : ℕ → Fin 4 → ℚ) (running failAt : ℕ → Bool) :
    ℕ → ℕ → List Sig
  | _, 0 => []
  | k, fuel + 1 =>
    if running k = false then [.status]
    else if failAt k then [.err]
    else
      .status ::
        (if all_at_baseline tolerance_val targets (readings k) then [.status, .fin]
         else purgeWorkerSignals tolerance_val targets readings running failAt (k + 1) fuel)

/-- One raw sample of the continuous engine: temperature, humidity, the
four gas voltages and the 18 raw spectral counts read in one tick. -/
structure Sample where
  temp : ℚ
  hum : ℚ
  mq : Fin 4 → ℚ
  as_raw : Fin 18 → ℚ
deriving DecidableEq

/-- `statistics.mean`: the sum of a list divided by its length. -/
def statistics_mean (l : List ℚ) : ℚ := l.sum / l.length

/-- The buffer-and-output state of `ContinuousMeasurementWorker`: the
per-field averaging buffers (`temp_buffer`, `hum_buffer`, the four
`mq_buffers`, the eighteen `as_buffers`), the rows appended to the raw
CSV and the rows appended to the averaged CSV. -/
structure ContState where
  temp_buffer : List ℚ
  hum_buffer : List ℚ
  mq_buffers : Fin 4 → List ℚ
  as_buffers : Fin 18 → List ℚ
  rawRows : List Sample
  avgRows : List Sample
deriving DecidableEq

/-- One tick of `ContinuousMeasurementWorker.run`
(`Training/continuous_tab.py`): the reading is appended to the raw rows
and pushed into every per-field buffer; when the buffer length reaches
`window_size`, a row holding the `statistics.mean` of every buffer is
appended to the averaged rows and every buffer is cleared (tumbling
window, no overlap). -/
def contStep (window_size : ℕ) (s : ContState) (x : Sample) : ContState :=
  let temp_buffer := s.temp_buffer ++ [x.temp]
  let hum_buffer := s.hum_buffer ++ [x.hum]
  let mq_buffers := fun k => s.mq_buffers k ++ [x.mq k]
  let as_buffers := fun i => s.as_buffers i ++ [x.as_raw i]
  let rawRows := s.rawRows ++ [x]
  if temp_buffer.length = window_size then
    { temp_buffer := [], hum_buffer := [], mq_buffers := fun _ => [],
      as_buffers := fun _ => [], rawRows := rawRows,
      avgRows := s.avgRows ++
        [({ temp := statistics_mean temp_buffer,
            hum := statistics_mean hum_buffer,
            mq := fun k => statistics_mean (mq_buffers k),
            as_raw := fun i => statistics_mean (as_buffers i) } : Sample)] }
  else
    { temp_buffer := temp_buffer, hum_buffer := hum_buffer,
      mq_buffers := mq_buffers, as_buffers := as_buffers,
      rawRows := rawRows, avgRows := s.avgRows }

/-- The continuous loop over a list of tick samples, from empty buffers
and no output rows. -/
def contRun (window_size : ℕ) (xs : List Sample) : ContState :=
  xs.foldl (contStep window_size) ⟨[], [], fun _ => [], fun _ => [], [], []⟩

/-- The elementwise arithmetic mean of a list of samples. -/
def avgSample (l : List Sample) : Sample where
  temp := statistics_mean (l.map Sample.temp)
  hum := statistics_mean (l.map Sample.hum)
  mq := fun k => statistics_mean (l.map fun x => x.mq k)
  as_raw := fun i => statistics_mean (l.map fun x => x.as_raw i)

/-- A continuous-engine state whose per-field buffers hold the fields of
one pending sample list: the lockstep invariant of the worker, which
appends one element to every buffer each tick and clears them together. -/
def stateOf (pending raw avg : List Sample) : ContState where
  temp_buffer := pending.map Sample.temp
  hum_buffer := pending.map Sample.hum
  mq_buffers := fun k => pending.map fun x => x.mq k
  as_buffers := fun i => pending.map fun x => x.as_raw i
  rawRows := raw
  avgRows := avg

/-- Exit paths of `ContinuousMeasurementWorker.run` after some number of
completed loop iterations. -/
inductive ContPath where
  /-- `stop()` cleared the flag and the while condition exited. -/
  | stopped (ticks : ℕ) : ContPath
  /-- A HAL read raised one of the hardware exceptions. -/
  | hwError (ticks : ℕ) : ContPath
  /-- Any other exception escaped the loop body. -/
  | otherError (ticks : ℕ) : ContPath
deriving DecidableEq

/-- Signals of one complete continuous-loop iteration `i`: the reading
status, the saving status, the `raw_data_update` emission, then either
the buffer-full status, the `averaged_update` emission and the
buffers-cleared status (when the window fills) or the collecting status.
The loop body never emits `finished`. -/
def contTickSignals (window_size : ℕ) (i : ℕ) : List Sig :=
  [.status, .status, .raw] ++
    (if (i + 1) % window_size = 0 then [.status, .avg, .status] else [.status])

/-- The full signal trace of `ContinuousMeasurementWorker.run`: `ticks`
complete iterations, then the exit path; the except clauses emit `error`,
and the `finally` clause emits `finished` on every path. -/
def continuousRunSignals (window_size : ℕ) : ContPath → List Sig
  | .stopped ticks =>
      ((List.range ticks).map (contTickSignals window_size)).flatten ++ [.fin]
  | .hwError ticks =>
      ((List.range ticks).map (contTickSignals window_size)).flatten ++ [.err, .fin]
  | .otherError ticks =>
      ((List.range ticks).map (contTickSignals window_size)).flatten ++ [.err, .fin]

/-- Python `max` over a nonempty sequence: a left fold of the binary max
seeded with the first element. -/
def pyMax (x : ℚ) (xs : List ℚ) : ℚ := xs.foldl max x

/-- `SensorWorker.run_scan` aggregation (`dashboard_tab.py`): with
accumulated shots `first :: rest`, every numeric field takes the max
across all shots and every non-numeric field is taken from the first
shot. -/
def run_scan_aggregate {n : ℕ} (first : (Fin n → ℚ) × String)
    (rest : List ((Fin n → ℚ) × String)) : (Fin n → ℚ) × String :=
  (fun k => pyMax (first.1 k) (rest.map fun d => d.1 k), first.2)

/-- Per-field block aggregation of the training `MeasurementWorker.run`
(`[3]TRAINING_MODE/Training/training_tab.py`): `statistics.mean` of the
values of that field across the shots. -/
def trainingBlockAverage {n : ℕ} (shots : List (Fin n → ℚ)) : Fin n → ℚ :=
  fun k => statistics_mean (shots.map fun s => s k)

/-- The final training average: `statistics.mean` across the block means,
per field. -/
def trainingFinalAverage {n : ℕ} (blocks : List (Fin n → ℚ)) : Fin n → ℚ :=
  fun k => statistics_mean (blocks.map fun b => b k)

/-- Zero-padding of Python `%04d`: pads the decimal representation to
width four (longer representations are kept unchanged). -/
def pad4 (n : ℕ) : String :=
  let s := toString n
  String.mk (List.replicate (4 - s.length) (Char.ofNat 48)) ++ s

/-- The sample-ID fields (column 1) of the report rows whose type field
(column 2) matches the scanned sample type, among rows long enough to
carry one; the header row is already skipped. -/
def matching_sample_ids (sample_type : String) (rows : List (List String)) :
    List String :=
  (rows.filter fun row => decide (2 < row.length) && (row.getD 2 "" == sample_type)).map
    fun row => row.getD 1 ""

/-- `DashboardTab._get_new_sample_id` (`dashboard_tab.py`): collect the
set of distinct sample IDs among same-type rows of the report CSV and
return `PS-<pfx>_<NNNN>` where `NNNN` is that count plus one, zero-padded
to four digits. -/
def get_new_sample_id (pfx : String) (sample_type : String)
    (rows : List (List String)) : String :=
  let unique_ids := (matching_sample_ids sample_type rows).dedup
  let num := unique_ids.length
  "PS-" ++ pfx ++ "_" ++ pad4 (num + 1)

/-- Two report rows of the same meat type whose existing sample IDs are
PS-CB_0001 and PS-CB_0005 (for instance after other rows were deleted). -/
def exampleReportRows : List (List String) :=
  [["t1", "PS-CB_0001", "Chicken Breast"], ["t2", "PS-CB_0005", "Chicken Breast"]]

/-- A concrete first tick sample for the window-2 run. -/
def sampleA : Sample where
  temp := 1
  hum := 2
  mq := fun _ => 3
  as_raw := fun _ => 4

/-- A concrete second tick sample for the window-2 run. -/
def sampleB : Sample where
  temp := 5
  hum := 6
  mq := fun _ => 7
  as_raw := fun _ => 8

/-- Strict monotonicity of the square root on nonnegative rationals: the
bridge between the `math.sqrt`-based Euclidean distances of the source and the
squared sums this embedding compares. -/
theorem sqrt_lt_sqrt_iff_of_nonneg (a b : ℚ) (ha : 0 ≤ a) :
    Real.sqrt (a : ℝ) < Real.sqrt (b : ℝ) ↔ (a : ℝ) < (b : ℝ) := by
  constructor
  · intro h
    by_contra hle
    push_neg at hle
    exact absurd (Real.sqrt_le_sqrt hle) (not_le.mpr h)
  · intro h
    exact Real.sqrt_lt_sqrt (by exact_mod_cast ha) h

/-- Squared distances are nonnegative. -/
theorem distance_sq_nonneg (v w : Fin 18 → ℚ) :
    0 ≤ calculate_multidimensional_distance_sq v w := by
  unfold calculate_multidimensional_distance_sq
  exact Finset.sum_nonneg fun i _ => sq_nonneg _

/-- Lower and upper bound of the Python clamp `min(max(x, a), b)`. -/
theorem clamp_bounds (x a b : ℚ) (hab : a ≤ b) :
    a ≤ min (max x a) b ∧ min (max x a) b ≤ b :=
  ⟨le_min (le_max_right _ _) hab, min_le_right _ _⟩

/-- Truncation toward zero never exceeds an integer upper bound of its
argument. -/
theorem pyInt_le_of_le (x : ℚ) (n : ℤ) (h : x ≤ (n : ℚ)) : pyInt x ≤ n := by
  unfold pyInt
  split
  · have h1 : (⌊x⌋ : ℚ) ≤ (n : ℚ) := le_trans (Int.floor_le x) h
    exact_mod_cast h1
  · exact Int.ceil_le.mpr h

/-- Truncation toward zero respects an integer lower bound of its
argument. -/
theorem le_pyInt_of_le (n : ℤ) (x : ℚ) (h : (n : ℚ) ≤ x) : n ≤ pyInt x := by
  unfold pyInt
  split
  · exact Int.le_floor.mpr h
  · have h1 : (n : ℚ) ≤ (⌈x⌉ : ℚ) := le_trans h (Int.le_ceil x)
    exact_mod_cast h1

/-- C1: for every fused reading and every loaded calibration table, the
classifier decides in this exact order: score 25 when channel 2 is
strictly below `fresh_ch2_min`; otherwise 35 when `mq137` is strictly
above `fresh_mq137_max` or `mq3` strictly above `fresh_mq3_max`;
otherwise 95 when the Euclidean distance of the 18-channel vector to the
Fresh centroid is strictly smaller than to the Semi-Fresh centroid and 65
otherwise (the middle conjunct identifies the Euclidean-distance
comparison with the squared comparison used in the first conjunct); and
the final grade is (FRESH, high, Grade A) for score at least 80,
(SEMI-FRESH, normal, Grade B) for score at least 50, and
(SPOILT, low, Grade C) otherwise. -/
theorem claim_C1_classifier_decision_order (cal : Calibration) (r : RawReadings) :
    ((calculate_group_scores cal r).2.2.2.2 =
      if r.spectrum 1 < cal.fresh_ch2_min then 25
      else if r.mq137 > cal.fresh_mq137_max ∨ r.mq3 > cal.fresh_mq3_max then 35
      else if calculate_multidimensional_distance_sq r.spectrum cal.mean_spectral_fresh <
              calculate_multidimensional_distance_sq r.spectrum cal.mean_spectral_semi
           then 95 else 65) ∧
    (Real.sqrt ((calculate_multidimensional_distance_sq r.spectrum cal.mean_spectral_fresh : ℚ) : ℝ) <
        Real.sqrt ((calculate_multidimensional_distance_sq r.spectrum cal.mean_spectral_semi : ℚ) : ℝ) ↔
      calculate_multidimensional_distance_sq r.spectrum cal.mean_spectral_fresh <
        calculate_multidimensional_distance_sq r.spectrum cal.mean_spectral_semi) ∧
    (∀ s : ℤ, calculate_overall_quality s =
      if s ≥ 80 then ("FRESH", "high", "Grade A")
      else if s ≥ 50 then ("SEMI-FRESH", "normal", "Grade B")
      else ("SPOILT", "low", "Grade C")) := by
  refine ⟨?_, ?_, fun s => rfl⟩
  · show pyInt (classification_score cal r) = _
    unfold classification_score
    split_ifs <;> norm_num [pyInt]
  · exact (sqrt_lt_sqrt_iff_of_nonneg _ _ (distance_sq_nonneg _ _)).trans Rat.cast_lt

/-- C7: for every calibration and every reading, each of the four returned
UI indices (enose, whc, fac, myoglobin) lies in [0, 100], and the three
biochemical estimates lie in their declared ranges: `myo_est` in
[0.1, 3.5], `fat_est` in [0.5, 8], `whc_est` in [50, 95]. -/
theorem claim_C7_clamp_invariant (cal : Calibration) (r : RawReadings) :
    ((1 / 10 : ℚ) ≤ myo_est cal r ∧ myo_est cal r ≤ 7 / 2) ∧
    ((1 / 2 : ℚ) ≤ fat_est cal r ∧ fat_est cal r ≤ 8) ∧
    ((50 : ℚ) ≤ whc_est cal r ∧ whc_est cal r ≤ 95) ∧
    (0 ≤ (calculate_group_scores cal r).1 ∧ (calculate_group_scores cal r).1 ≤ 100) ∧
    (0 ≤ (calculate_group_scores cal r).2.1 ∧ (calculate_group_scores cal r).2.1 ≤ 100) ∧
    (0 ≤ (calculate_group_scores cal r).2.2.1 ∧ (calculate_group_scores cal r).2.2.1 ≤ 100) ∧
    (0 ≤ (calculate_group_scores cal r).2.2.2.1 ∧ (calculate_group_scores cal r).2.2.2.1 ≤ 100) := by
  have hmyo := clamp_bounds ((((r.spectrum 8 + r.spectrum 9 + r.spectrum 10) / 3) /
    (if cal.max_redness > 0 then cal.max_redness else 500)) * (5 / 2)) (1 / 10) (7 / 2) (by norm_num)
  have hfat := clamp_bounds ((((r.spectrum 1 + r.spectrum 4 + r.spectrum 6) / 3) /
    (if cal.max_luma > 0 then cal.max_luma else 2000)) * 6) (1 / 2) 8 (by norm_num)
  have hwhc := clamp_bounds (WHC_BASE - (r.mq137 /
    ((if cal.fresh_mq137_max > 0 then cal.fresh_mq137_max else 3 / 2) * (3 / 2))) * 20) 50 95 (by norm_num)
  have hmyo1 : (1 / 10 : ℚ) ≤ myo_est cal r ∧ myo_est cal r ≤ 7 / 2 := hmyo
  have hfat1 : (1 / 2 : ℚ) ≤ fat_est cal r ∧ fat_est cal r ≤ 8 := hfat
  have hwhc1 : (50 : ℚ) ≤ whc_est cal r ∧ whc_est cal r ≤ 95 := hwhc
  refine ⟨hmyo1, hfat1, hwhc1, ⟨le_max_left _ _, ?_⟩, ⟨?_, ?_⟩, ⟨?_, ?_⟩, ⟨?_, ?_⟩⟩
  · exact max_le (by norm_num) (min_le_left _ _)
  · exact le_pyInt_of_le 0 _ (by push_cast; linarith [hwhc1.1])
  · exact pyInt_le_of_le _ 100 (by push_cast; linarith [hwhc1.2])
  · exact le_pyInt_of_le 0 _ (by push_cast; nlinarith [hfat1.1])
  · exact pyInt_le_of_le _ 100 (by push_cast; nlinarith [hfat1.2])
  · exact le_pyInt_of_le 0 _ (by push_cast; nlinarith [hmyo1.1])
  · exact pyInt_le_of_le _ 100 (by push_cast; nlinarith [hmyo1.2])

/-- C10: a reading whose 18 spectral channels are all zero (the
`AS7265X_PLACEHOLDER_ZEROS` placeholder returned by `read_spectrometer`
on any channel-read failure) yields classification score 25 and the grade
(SPOILT, low, Grade C), provided the loaded `fresh_ch2_min` is strictly
positive. -/
theorem claim_C10_zero_placeholder_is_grade_C (cal : Calibration) (r : RawReadings)
    (hs : r.spectrum = AS7265X_PLACEHOLDER_ZEROS) (hmin : 0 < cal.fresh_ch2_min) :
    (calculate_group_scores cal r).2.2.2.2 = 25 ∧
    calculate_overall_quality ((calculate_group_scores cal r).2.2.2.2) =
      ("SPOILT", "low", "Grade C") := by
  have hch2 : r.spectrum 1 = 0 := by rw [hs]; rfl
  have hscore : (calculate_group_scores cal r).2.2.2.2 = 25 := by
    show pyInt (classification_score cal r) = 25
    unfold classification_score
    rw [if_pos (by rw [hch2]; exact hmin)]
    norm_num [pyInt]
  refine ⟨hscore, ?_⟩
  rw [hscore]
  norm_num [calculate_overall_quality]

/-- C10 witness: the zero-spectrum placeholder under the Fresh-scenario
calibration grades as (SPOILT, low, Grade C) with score 25. -/
theorem claim_C10_zero_placeholder_is_grade_C_witness :
    (calculate_group_scores freshScenarioCal
        { mq137 := 1 / 2, mq3 := 3 / 10, spectrum := AS7265X_PLACEHOLDER_ZEROS }).2.2.2.2 = 25 ∧
    calculate_overall_quality ((calculate_group_scores freshScenarioCal
        { mq137 := 1 / 2, mq3 := 3 / 10, spectrum := AS7265X_PLACEHOLDER_ZEROS }).2.2.2.2) =
      ("SPOILT", "low", "Grade C") :=
  claim_C10_zero_placeholder_is_grade_C freshScenarioCal _ rfl (by norm_num [freshScenarioCal])

/-- C3 counterexample: in the Fresh-sample scenario (`fresh_mq137_max =
1.5`, `whc_base = 88`, input `mq137 = 0.5`) the code returns `whc_idx =
83`, not the 84 that rounding `whc_est = 752/9 = 83.55...` to the nearest
integer would give: `calculate_group_scores` truncates with Python `int`,
it does not round. -/
theorem claim_C3_counterexample :
    (calculate_group_scores freshScenarioCal freshScenarioReading).2.1 = 83 ∧
    whc_est freshScenarioCal freshScenarioReading = 752 / 9 ∧
    ¬ (83 : ℤ) = 84 := by
  refine ⟨?_, ?_, by norm_num⟩
  · norm_num [calculate_group_scores, whc_est, WHC_BASE, pyInt, freshScenarioCal,
      freshScenarioReading]
  · norm_num [whc_est, WHC_BASE, freshScenarioCal, freshScenarioReading]

/-- C3 amended: the three spectral UI indices are computed by Python
`int` truncation toward zero, not rounding: `whc_idx = int(whc_est)`,
`fac_idx = int((fat_est/8)*100)`, `myo_idx = int((myo_est/3.5)*100)`; in
particular, in the Fresh-sample scenario `whc_est = 752/9` and the
returned `whc_idx` is 83. -/
theorem claim_C3_truncated_indices (cal : Calibration) (r : RawReadings) :
    ((calculate_group_scores cal r).2.1 = pyInt (whc_est cal r) ∧
     (calculate_group_scores cal r).2.2.1 = pyInt ((fat_est cal r / 8) * 100) ∧
     (calculate_group_scores cal r).2.2.2.1 = pyInt ((myo_est cal r / (7 / 2)) * 100)) ∧
    whc_est freshScenarioCal freshScenarioReading = 752 / 9 ∧
    (calculate_group_scores freshScenarioCal freshScenarioReading).2.1 = 83 := by
  refine ⟨⟨rfl, rfl, rfl⟩, ?_, ?_⟩
  · norm_num [whc_est, WHC_BASE, freshScenarioCal, freshScenarioReading]
  · norm_num [calculate_group_scores, whc_est, WHC_BASE, pyInt, freshScenarioCal,
      freshScenarioReading]

/-- With the running flag always set, no injected failure, and readings
that never reach baseline, the `PurgeWorker.run` loop is still running
after any number of checks: the worker body contains no timeout test. -/
theorem purgeWorkerRun_of_never_ok (tolerance_val : ℚ) (targets : Fin 4 → ℚ)
    (readings : ℕ → Fin 4 → ℚ)
    (h : ∀ j, all_at_baseline tolerance_val targets (readings j) = false) :
    ∀ fuel k, purgeWorkerRun tolerance_val targets readings (fun _ => true)
      (fun _ => false) k fuel = .runningOut := by
  intro fuel
  induction fuel with
  | zero => intro k; rfl
  | succ n ih =>
    intro k
    rw [purgeWorkerRun]
    rw [if_neg (by simp)]
    rw [if_neg (by simp)]
    rw [h k]
    rw [if_neg (by simp)]
    exact ih (k + 1)

/-- A constant reading of 1.5 V on every sensor is not at a baseline of
1.0 V under the 5 percent tolerance band. -/
theorem const_bad_reading_not_at_baseline :
    all_at_baseline (5 / 100) (fun _ => 1) (fun _ => 3 / 2) = false := by
  rw [Bool.eq_false_iff]
  intro h
  have h0 := List.all_eq_true.mp h 0 (List.mem_finRange 0)
  norm_num [is_at_baseline] at h0

/-- C2 counterexample: with readings that never satisfy the convergence
criterion (every sensor stuck at 1.5 V against a 1.0 V target) and the
operator never stopping it, the `PurgeWorker.run` loop is still running
after 30 checks, although already the 21st check happens after 63 s of
accumulated sleeps, past the claimed 60-second timeout; the loop does not
stop with TIMEOUT at 60 s. -/
theorem claim_C2_counterexample :
    purgeWorkerRun (5 / 100) (fun _ => 1) (fun _ _ => 3 / 2) (fun _ => true)
        (fun _ => false) 0 30 = .runningOut ∧
    60 < purgeElapsedBeforeCheck 21 := by
  constructor
  · exact purgeWorkerRun_of_never_ok (5 / 100) (fun _ => 1) (fun _ _ => 3 / 2)
      (fun j => const_bad_reading_not_at_baseline) 30 0
  · norm_num [purgeElapsedBeforeCheck]

/-- C2 amended: the `PurgeWorker.run` loop itself has no timeout - when
the readings never satisfy the convergence criterion and the worker is
not stopped, it runs forever; the 60-second TIMEOUT escape exists only in
the dashboard smart purge, whose `on_purge_update` handler stops with
reason TIMEOUT whenever a readings update arrives with more than 60 s
elapsed. -/
theorem claim_C2_purge_timeout_location :
    (∀ (tolerance_val : ℚ) (targets : Fin 4 → ℚ) (readings : ℕ → Fin 4 → ℚ)
        (k fuel : ℕ),
        (∀ j, all_at_baseline tolerance_val targets (readings j) = false) →
        purgeWorkerRun tolerance_val targets readings (fun _ => true)
          (fun _ => false) k fuel = .runningOut) ∧
    (∀ (elapsed : ℚ) (current baseline : Fin 4 → ℚ),
        SMART_PURGE_TIMEOUT_S < elapsed →
        on_purge_update elapsed current baseline = some .timedOut) := by
  constructor
  · intro tolerance_val targets readings k fuel h
    exact purgeWorkerRun_of_never_ok tolerance_val targets readings h fuel k
  · intro elapsed current baseline h
    rw [on_purge_update, if_pos h]

/-- C2 amended witness: a never-converging run is still going after five
checks, and an update at 61 s elapsed stops the smart purge with TIMEOUT. -/
theorem claim_C2_purge_timeout_location_witness :
    purgeWorkerRun (5 / 100) (fun _ => 1) (fun _ _ => 3 / 2) (fun _ => true)
        (fun _ => false) 0 5 = .runningOut ∧
    on_purge_update 61 (fun _ => 1) (fun _ => 1) = some .timedOut := by
  constructor
  · exact claim_C2_purge_timeout_location.1 (5 / 100) (fun _ => 1)
      (fun _ _ => 3 / 2) 0 5 (fun j => const_bad_reading_not_at_baseline)
  · exact claim_C2_purge_timeout_location.2 61 (fun _ => 1) (fun _ => 1)
      (by norm_num [SMART_PURGE_TIMEOUT_S])

/-- One unfolding step of `purgeWorkerRun` with the running flag set and
no injected failure: only the baseline check matters. -/
theorem purgeWorkerRun_step (tolerance_val : ℚ) (targets : Fin 4 → ℚ)
    (readings : ℕ → Fin 4 → ℚ) (k n : ℕ) :
    purgeWorkerRun tolerance_val targets readings (fun _ => true)
        (fun _ => false) k (n + 1) =
      if all_at_baseline tolerance_val targets (readings k) then .finished k
      else purgeWorkerRun tolerance_val targets readings (fun _ => true)
        (fun _ => false) (k + 1) n := by
  rw [purgeWorkerRun]
  rw [if_neg (by simp)]
  rw [if_neg (by simp)]

/-- First-hit characterization of the purge loop: a run started at check
`k` with `fuel` remaining checks stops (emitting `finished`, i.e. reason
CLEAN) at check `j` exactly when `j` is within the observed window, all
four sensors are at baseline at check `j`, and at no earlier observed
check were all four at baseline. -/
theorem purgeWorkerRun_finished_iff (tolerance_val : ℚ) (targets : Fin 4 → ℚ)
    (readings : ℕ → Fin 4 → ℚ) :
    ∀ (fuel k j : ℕ),
      purgeWorkerRun tolerance_val targets readings (fun _ => true)
          (fun _ => false) k fuel = .finished j ↔
        (k ≤ j ∧ j < k + fuel ∧
          all_at_baseline tolerance_val targets (readings j) = true ∧
          ∀ i, k ≤ i → i < j →
            all_at_baseline tolerance_val targets (readings i) = false) := by
  intro fuel
  induction fuel with
  | zero =>
    intro k j
    constructor
    · intro h
      rw [purgeWorkerRun] at h
      cases h
    · rintro ⟨h1, h2, -, -⟩
      exfalso
      omega
  | succ n ih =>
    intro k j
    rw [purgeWorkerRun_step]
    by_cases hok : all_at_baseline tolerance_val targets (readings k) = true
    · rw [if_pos hok]
      constructor
      · intro h
        injection h with hkj
        subst hkj
        exact ⟨le_refl k, by omega, hok, fun i h1 h2 => absurd h2 (by omega)⟩
      · rintro ⟨h1, h2, hj, hmin⟩
        have hjk : j = k := by
          by_contra hne
          have hkj : k < j := lt_of_le_of_ne h1 (Ne.symm hne)
          have hfalse := hmin k (le_refl k) hkj
          rw [hfalse] at hok
          cases hok
        rw [hjk]
    · rw [if_neg hok]
      have hok' : all_at_baseline tolerance_val targets (readings k) = false :=
        Bool.eq_false_iff.mpr hok
      rw [ih (k + 1) j]
      constructor
      · rintro ⟨h1, h2, hj, hmin⟩
        refine ⟨by omega, by omega, hj, fun i hi1 hi2 => ?_⟩
        rcases eq_or_lt_of_le hi1 with heq | hlt
        · rw [← heq]
          exact hok'
        · exact hmin i (by omega) hi2
      · rintro ⟨h1, h2, hj, hmin⟩
        have hkj : k < j := by
          rcases lt_or_eq_of_le h1 with h | h
          · exact h
          · exfalso
            rw [← h] at hj
            rw [hj] at hok'
            cases hok'
        exact ⟨by omega, by omega, hj, fun i hi1 hi2 => hmin i (by omega) hi2⟩

/-- C6 counterexample: the dashboard smart purge check does not use the
5 percent tolerance band: with every baseline target at 1.0 V and every
reading at 0.5 V, `on_purge_update` (within the timeout) stops with
reason CLEAN, although 0.5 V lies outside the band [0.95, 1.05] - the
sensor is not converged under the claimed criterion, as the band test of
`_is_at_baseline` itself confirms. -/
theorem claim_C6_counterexample :
    on_purge_update 0 (fun _ => 1 / 2) (fun _ => 1) = some .chamberClear ∧
    is_at_baseline (5 / 100) (1 / 2) 1 = false ∧
    ¬ ((1 : ℚ) * (1 - 5 / 100) ≤ 1 / 2 ∧ (1 : ℚ) / 2 ≤ 1 * (1 + 5 / 100)) := by
  refine ⟨?_, ?_, by norm_num⟩
  · rw [on_purge_update, if_neg (by norm_num [SMART_PURGE_TIMEOUT_S])]
    rw [if_pos (List.all_eq_true.mpr (fun k _ => by norm_num))]
  · rw [Bool.eq_false_iff]
    intro h
    norm_num [is_at_baseline] at h

/-- C6 amended: the 5 percent tolerance band with the zero-target guard
is the convergence criterion of the dynamic purge worker only: a gas
sensor passes `PurgeWorker._is_at_baseline` exactly when its value lies
within the band around its target (a zero target requiring an exactly
zero value), the all-sensors check holds exactly when all four sensors
pass, and the worker loop stops clean at check `j` exactly when `j` is
the first observed check at which all four pass.  The dashboard smart
purge judges differently: within the timeout, `on_purge_update` stops
with reason CLEAN exactly when every sensor reads at or below its
baseline value (a zero baseline entry replaced by 0.1), a one-sided test
rather than the band. -/
theorem claim_C6_purge_convergence_criterion :
    (∀ current_val target_val : ℚ,
        is_at_baseline (5 / 100) current_val target_val = true ↔
          (if target_val = 0 then current_val = 0
           else target_val * (1 - 5 / 100) ≤ current_val ∧
             current_val ≤ target_val * (1 + 5 / 100))) ∧
    (∀ targets current : Fin 4 → ℚ,
        all_at_baseline (5 / 100) targets current = true ↔
          ∀ k, is_at_baseline (5 / 100) (current k) (targets k) = true) ∧
    (∀ (targets : Fin 4 → ℚ) (readings : ℕ → Fin 4 → ℚ) (fuel k j : ℕ),
        purgeWorkerRun (5 / 100) targets readings (fun _ => true)
            (fun _ => false) k fuel = .finished j ↔
          (k ≤ j ∧ j < k + fuel ∧
            all_at_baseline (5 / 100) targets (readings j) = true ∧
            ∀ i, k ≤ i → i < j →
              all_at_baseline (5 / 100) targets (readings i) = false)) ∧
    (∀ (elapsed : ℚ) (current baseline : Fin 4 → ℚ),
        ¬ SMART_PURGE_TIMEOUT_S < elapsed →
        (on_purge_update elapsed current baseline = some .chamberClear ↔
          ∀ k, current k ≤ (if baseline k = 0 then 1 / 10 else baseline k))) := by
  refine ⟨?_, ?_, ?_, ?_⟩
  · intro current_val target_val
    rw [is_at_baseline]
    split_ifs with ht
    · exact beq_iff_eq
    · simp only [decide_eq_true_eq]
  · intro targets current
    rw [all_at_baseline, List.all_eq_true]
    constructor
    · intro h k
      exact h k (List.mem_finRange k)
    · intro h k _
      exact h k
  · intro targets readings fuel k j
    exact purgeWorkerRun_finished_iff (5 / 100) targets readings fuel k j
  · intro elapsed current baseline h
    rw [on_purge_update, if_neg h]
    constructor
    · intro heq
      by_cases hall : (List.finRange 4).all (fun k =>
          let base_val := if baseline k = 0 then 1 / 10 else baseline k
          decide (current k ≤ base_val)) = true
      · intro k
        have hk := List.all_eq_true.mp hall k (List.mem_finRange k)
        simpa using hk
      · rw [if_neg hall] at heq
        cases heq
    · intro hk
      rw [if_pos (List.all_eq_true.mpr (fun k _ => by simpa using hk k))]

/-- C6 witness: a 1.0 V reading against a 1.0 V target passes the worker
band test, a worker run whose very first check sees all sensors at
baseline stops clean at check 0, and a dashboard update within the
timeout with every reading at its baseline stops with CLEAN. -/
theorem claim_C6_purge_convergence_criterion_witness :
    is_at_baseline (5 / 100) 1 1 = true ∧
    purgeWorkerRun (5 / 100) (fun _ => 1) (fun _ _ => 1) (fun _ => true)
        (fun _ => false) 0 1 = .finished 0 ∧
    on_purge_update 0 (fun _ => 1) (fun _ => 1) = some .chamberClear := by
  have h1 : is_at_baseline (5 / 100) 1 1 = true :=
    (claim_C6_purge_convergence_criterion.1 1 1).mpr (by norm_num)
  have hall : all_at_baseline (5 / 100) (fun _ => 1) (fun _ => 1) = true :=
    (claim_C6_purge_convergence_criterion.2.1 (fun _ => 1) (fun _ => 1)).mpr
      (fun k => h1)
  refine ⟨h1, ?_, ?_⟩
  · exact (claim_C6_purge_convergence_criterion.2.2.1 (fun _ => 1) (fun _ _ => 1)
      1 0 0).mpr ⟨le_refl 0, by omega, hall, fun i hi1 hi2 => absurd hi2 (by omega)⟩
  · exact (claim_C6_purge_convergence_criterion.2.2.2 0 (fun _ => 1) (fun _ => 1)
      (by norm_num [SMART_PURGE_TIMEOUT_S])).mpr (fun k => by norm_num)

/-- The purge signal trace contains exactly one `finished` when the run
ends clean and none otherwise (cancelled, errored, or still running). -/
theorem purgeWorkerSignals_fin_count (tolerance_val : ℚ) (targets : Fin 4 → ℚ)
    (readings : ℕ → Fin 4 → ℚ) (running failAt : ℕ → Bool) :
    ∀ (fuel k : ℕ),
      (purgeWorkerSignals tolerance_val targets readings running failAt
          k fuel).count .fin =
        (match purgeWorkerRun tolerance_val targets readings running failAt
            k fuel with
         | .finished _ => 1
         | _ => 0) := by
  intro fuel
  induction fuel with
  | zero => intro k; rfl
  | succ n ih =>
    intro k
    rw [purgeWorkerSignals, purgeWorkerRun]
    by_cases hr : running k = false
    · rw [if_pos hr, if_pos hr]
      rfl
    · rw [if_neg hr, if_neg hr]
      by_cases hf : failAt k = true
      · rw [if_pos hf, if_pos hf]
        rfl
      · rw [if_neg hf, if_neg hf]
        by_cases hok : all_at_baseline tolerance_val targets (readings k) = true
        · rw [if_pos hok, if_pos hok]
          rfl
        · rw [if_neg hok, if_neg hok]
          rw [List.count_cons]
          simp only [ih (k + 1)]
          rfl

/-- No single continuous-loop iteration emits `finished`. -/
theorem contTickSignals_fin_count (window_size i : ℕ) :
    (contTickSignals window_size i).count .fin = 0 := by
  rw [contTickSignals]
  split_ifs <;> rfl

/-- No number of complete continuous-loop iterations emits `finished`. -/
theorem contBody_fin_count (window_size ticks : ℕ) :
    (((List.range ticks).map (contTickSignals window_size)).flatten).count
      .fin = 0 := by
  induction ticks with
  | zero => rfl
  | succ n ih =>
    rw [List.range_succ, List.map_append, List.flatten_append, List.count_append]
    rw [ih]
    simp [contTickSignals_fin_count]

/-- C5 counterexample: an operator stop before the first purge check ends
`PurgeWorker.run` on the cancelled path, whose signal trace is a single
status line with zero `finished` emissions - the purge worker does not
emit `finished` on stop. -/
theorem claim_C5_counterexample :
    purgeWorkerRun (5 / 100) (fun _ => 1) (fun _ _ => 1) (fun _ => false)
        (fun _ => false) 0 5 = .cancelled 0 ∧
    purgeWorkerSignals (5 / 100) (fun _ => 1) (fun _ _ => 1) (fun _ => false)
        (fun _ => false) 0 5 = [.status] ∧
    ([Sig.status].count .fin = 0) :=
  ⟨rfl, rfl, rfl⟩

/-- C5 amended: the continuous measurement worker emits `finished`
exactly once on every exit path (success, hardware error, other error,
operator stop) thanks to its `finally` clause; the purge worker instead
emits `finished` exactly when its run ends clean, and emits none on the
cancelled, errored, or still-running paths. -/
theorem claim_C5_finished_signal_paths :
    (∀ (window_size : ℕ) (p : ContPath),
        (continuousRunSignals window_size p).count .fin = 1) ∧
    (∀ (tolerance_val : ℚ) (targets : Fin 4 → ℚ) (readings : ℕ → Fin 4 → ℚ)
        (running failAt : ℕ → Bool) (fuel k : ℕ),
        (purgeWorkerSignals tolerance_val targets readings running failAt
            k fuel).count .fin =
          (match purgeWorkerRun tolerance_val targets readings running failAt
              k fuel with
           | .finished _ => 1
           | _ => 0)) := by
  constructor
  · intro window_size p
    cases p with
    | stopped t =>
      rw [continuousRunSignals, List.count_append, contBody_fin_count]
      rfl
    | hwError t =>
      rw [continuousRunSignals, List.count_append, contBody_fin_count]
      rfl
    | otherError t =>
      rw [continuousRunSignals, List.count_append, contBody_fin_count]
      rfl
  · intro tolerance_val targets readings running failAt fuel k
    exact purgeWorkerSignals_fin_count tolerance_val targets readings running
      failAt fuel k

/-- One continuous tick preserves the lockstep-buffer invariant: from a
state whose buffers hold the pending list, the step either fills the
window (emitting one averaged row and clearing every buffer) or extends
every buffer by the new sample. -/
theorem contStep_stateOf (W : ℕ) (p raw avg : List Sample) (x : Sample) :
    contStep W (stateOf p raw avg) x =
      if p.length + 1 = W then
        stateOf [] (raw ++ [x]) (avg ++ [avgSample (p ++ [x])])
      else stateOf (p ++ [x]) (raw ++ [x]) avg := by
  by_cases h : p.length + 1 = W
  · rw [if_pos h]
    rw [contStep]
    rw [if_pos (by simp [stateOf]; omega)]
    simp [stateOf, avgSample, statistics_mean, List.map_append]
  · rw [if_neg h]
    rw [contStep]
    rw [if_neg (by simp [stateOf]; omega)]
    simp [stateOf, List.map_append]

/-- Feeding exactly the samples that complete one window, starting from
buffers holding `p`, appends those samples to the raw rows, emits exactly
one averaged row (the mean of the full window) and clears the buffers. -/
theorem contRun_fill (W : ℕ) :
    ∀ (xs p raw avg : List Sample), p.length + xs.length = W → xs ≠ [] →
      xs.foldl (contStep W) (stateOf p raw avg) =
        stateOf [] (raw ++ xs) (avg ++ [avgSample (p ++ xs)]) := by
  intro xs
  induction xs with
  | nil => intro p raw avg h hne; cases hne rfl
  | cons x ys ih =>
    intro p raw avg h hne
    rw [List.foldl_cons, contStep_stateOf]
    by_cases hy : ys = []
    · subst hy
      have hW : p.length + 1 = W := by
        simp only [List.length_cons, List.length_nil] at h
        omega
      rw [if_pos hW]
      simp
    · have hylen : 0 < ys.length := List.length_pos.mpr hy
      have hW : ¬ (p.length + 1 = W) := by
        simp only [List.length_cons] at h
        omega
      rw [if_neg hW]
      rw [ih (p ++ [x]) (raw ++ [x]) avg (by simp only [List.length_append,
        List.length_cons, List.length_nil] at h ⊢; omega) hy]
      simp [List.append_assoc]

/-- The continuous engine over two full windows: raw rows are exactly the
input samples and the averaged rows are exactly the means of the two
halves, with empty buffers at the end. -/
theorem contRun_two_windows (W : ℕ) (hW : 0 < W) (xs : List Sample)
    (hlen : xs.length = 2 * W) :
    contRun W xs = stateOf [] xs [avgSample (xs.take W), avgSample (xs.drop W)] := by
  have hlen1 : (xs.take W).length = W := by
    rw [List.length_take]
    omega
  have hlen2 : (xs.drop W).length = W := by
    rw [List.length_drop]
    omega
  have hne1 : xs.take W ≠ [] := by
    intro hnil
    rw [hnil] at hlen1
    simp at hlen1
    omega
  have hne2 : xs.drop W ≠ [] := by
    intro hnil
    rw [hnil] at hlen2
    simp at hlen2
    omega
  have h0 : (⟨[], [], fun _ => [], fun _ => [], [], []⟩ : ContState) =
      stateOf [] [] [] := by
    simp [stateOf]
  rw [contRun]
  conv_lhs => rw [← List.take_append_drop W xs]
  rw [List.foldl_append, h0]
  rw [contRun_fill W (xs.take W) [] [] [] (by simpa using hlen1) hne1]
  simp only [List.nil_append]
  rw [contRun_fill W (xs.drop W) [] (xs.take W) [avgSample (xs.take W)]
    (by simpa using hlen2) hne2]
  simp [List.take_append_drop]

/-- C4: feeding the continuous engine `2*W` samples with window `W > 0`
produces exactly `2*W` raw rows (the samples themselves, in order) and
exactly two averaged rows - the elementwise arithmetic means of the first
and second half respectively - with every buffer cleared after each
emission (tumbling window, no overlap); the last conjunct spells out that
each field of an averaged row is the `statistics.mean` of that field over
the averaged samples. -/
theorem claim_C4_tumbling_window (W : ℕ) (hW : 0 < W) (xs : List Sample)
    (hlen : xs.length = 2 * W) :
    (contRun W xs).rawRows = xs ∧
    (contRun W xs).rawRows.length = 2 * W ∧
    (contRun W xs).avgRows = [avgSample (xs.take W), avgSample (xs.drop W)] ∧
    (contRun W xs).temp_buffer = [] ∧
    (∀ l : List Sample,
      (avgSample l).temp = statistics_mean (l.map Sample.temp) ∧
      (avgSample l).hum = statistics_mean (l.map Sample.hum) ∧
      (∀ k, (avgSample l).mq k = statistics_mean (l.map fun x => x.mq k)) ∧
      (∀ i, (avgSample l).as_raw i = statistics_mean (l.map fun x => x.as_raw i))) := by
  rw [contRun_two_windows W hW xs hlen]
  exact ⟨rfl, by rw [show (stateOf [] xs _).rawRows = xs from rfl]; exact hlen,
    rfl, rfl, fun l => ⟨rfl, rfl, fun k => rfl, fun i => rfl⟩⟩

/-- C4 witness: with window 1 and the two concrete samples, the raw rows
are the two samples and the averaged rows are their two singleton means. -/
theorem claim_C4_tumbling_window_witness :
    (contRun 1 [sampleA, sampleB]).rawRows = [sampleA, sampleB] ∧
    (contRun 1 [sampleA, sampleB]).avgRows =
      [avgSample ([sampleA, sampleB].take 1), avgSample ([sampleA, sampleB].drop 1)] :=
  ⟨(claim_C4_tumbling_window 1 (by norm_num) [sampleA, sampleB] (by norm_num)).1,
   (claim_C4_tumbling_window 1 (by norm_num) [sampleA, sampleB] (by norm_num)).2.2.1⟩

/-- The Python max of a nonempty sequence is one of its elements. -/
theorem pyMax_mem (x : ℚ) (xs : List ℚ) : pyMax x xs ∈ x :: xs := by
  induction xs generalizing x with
  | nil => simp [pyMax]
  | cons y ys ih =>
    have h := ih (max x y)
    have hx : pyMax x (y :: ys) = pyMax (max x y) ys := rfl
    rw [hx]
    rcases List.mem_cons.mp h with h1 | h1
    · rcases max_choice x y with hc | hc
      · rw [h1, hc]
        exact List.mem_cons_self _ _
      · rw [h1, hc]
        exact List.mem_cons_of_mem _ (List.mem_cons_self _ _)
    · exact List.mem_cons_of_mem _ (List.mem_cons_of_mem _ h1)

/-- The seed is bounded by the Python max. -/
theorem le_pyMax_self (x : ℚ) (xs : List ℚ) : x ≤ pyMax x xs := by
  induction xs generalizing x with
  | nil => simp [pyMax]
  | cons y ys ih =>
    have hx : pyMax x (y :: ys) = pyMax (max x y) ys := rfl
    rw [hx]
    exact le_trans (le_max_left x y) (ih (max x y))

/-- Every element of the sequence is bounded by the Python max. -/
theorem le_pyMax_of_mem {v x : ℚ} {xs : List ℚ} (h : v ∈ xs) : v ≤ pyMax x xs := by
  induction xs generalizing x with
  | nil => cases h
  | cons y ys ih =>
    have hx : pyMax x (y :: ys) = pyMax (max x y) ys := rfl
    rw [hx]
    rcases List.mem_cons.mp h with rfl | h1
    · exact le_trans (le_max_right x v) (le_pyMax_self _ _)
    · exact ih h1

/-- C8: the dashboard scan aggregates its shots by elementwise max - for
every numeric field, the aggregated value is an element of the list of shot
values and an upper bound of all of them, and non-numeric fields come
from the first shot; the training engine aggregates a block by the
arithmetic mean per field (the value whose product with the shot count is
the field sum), and likewise for the final average across block means;
and the two aggregations genuinely differ: on the concrete one-field
shots with values 1 and 3 the dashboard aggregate is 3 while the
training block mean is 2. -/
theorem claim_C8_aggregation_asymmetry :
    (∀ (n : ℕ) (first : (Fin n → ℚ) × String)
        (rest : List ((Fin n → ℚ) × String)) (k : Fin n),
        (run_scan_aggregate first rest).1 k ∈
            first.1 k :: rest.map (fun d => d.1 k) ∧
        (∀ v ∈ first.1 k :: rest.map (fun d => d.1 k),
            v ≤ (run_scan_aggregate first rest).1 k) ∧
        (run_scan_aggregate first rest).2 = first.2) ∧
    (∀ (n : ℕ) (shots : List (Fin n → ℚ)) (k : Fin n),
        trainingBlockAverage shots k * (shots.length : ℚ) =
          (shots.map fun s => s k).sum) ∧
    (∀ (n : ℕ) (blocks : List (Fin n → ℚ)) (k : Fin n),
        trainingFinalAverage blocks k * (blocks.length : ℚ) =
          (blocks.map fun b => b k).sum) ∧
    ((run_scan_aggregate (fun _ : Fin 1 => (1 : ℚ), "shot") [(fun _ => 3, "shot")]).1 0 = 3 ∧
      trainingBlockAverage [fun _ : Fin 1 => (1 : ℚ), fun _ => 3] 0 = 2) := by
  have hmean : ∀ (l : List ℚ), statistics_mean l * (l.length : ℚ) = l.sum := by
    intro l
    rcases List.eq_nil_or_concat l with rfl | ⟨ys, y, rfl⟩
    · simp [statistics_mean]
    · have hpos : 0 < (ys.concat y).length := by simp
      have hne : (((ys.concat y).length : ℕ) : ℚ) ≠ 0 := by
        exact_mod_cast Nat.pos_iff_ne_zero.mp hpos
      rw [statistics_mean, div_mul_cancel₀ _ hne]
  refine ⟨?_, ?_, ?_, ?_, ?_⟩
  · intro n first rest k
    refine ⟨pyMax_mem _ _, ?_, rfl⟩
    intro v hv
    rcases List.mem_cons.mp hv with rfl | h1
    · exact le_pyMax_self _ _
    · exact le_pyMax_of_mem h1
  · intro n shots k
    rw [trainingBlockAverage]
    rw [show ((shots.length : ℚ)) = (((shots.map fun s => s k).length : ℕ) : ℚ) by
      rw [List.length_map]]
    exact hmean _
  · intro n blocks k
    rw [trainingFinalAverage]
    rw [show ((blocks.length : ℚ)) = (((blocks.map fun b => b k).length : ℕ) : ℚ) by
      rw [List.length_map]]
    exact hmean _
  · show pyMax 1 [3] = 3
    norm_num [pyMax]
  · show statistics_mean [1, 3] = 2
    norm_num [statistics_mean]

/-- C8 witness: the max-versus-mean facts of the final conjunct evaluated
through the theorem at the concrete two-shot input. -/
theorem claim_C8_aggregation_asymmetry_witness :
    (run_scan_aggregate (fun _ : Fin 1 => (1 : ℚ), "shot")
        [(fun _ => 3, "shot")]).1 0 = 3 ∧
    trainingBlockAverage [fun _ : Fin 1 => (1 : ℚ), fun _ => 3] 0 = 2 ∧
    (3 : ℚ) ≠ 2 :=
  ⟨claim_C8_aggregation_asymmetry.2.2.2.1,
   claim_C8_aggregation_asymmetry.2.2.2.2, by norm_num⟩

/-- C9 counterexample: with existing same-type rows whose sample IDs are
PS-CB_0001 and PS-CB_0005, the code returns PS-CB_0003 - the count of
distinct IDs (2) plus one, with an underscore before the number - whereas
the claimed max-sequence-plus-one rule in the claimed PS-TYPE-NNNN format
would give PS-CB-0006. -/
theorem claim_C9_counterexample :
    get_new_sample_id "CB" "Chicken Breast" exampleReportRows = "PS-CB_0003" ∧
    "PS-CB_0003" ≠ "PS-CB-0006" := by
  constructor
  · rfl
  · decide

/-- C9 amended: the next dashboard sample ID is
`PS-<TYPEPREFIX>_<NNNN>` (with an underscore before the counter), where
`NNNN` is the number of distinct sample IDs among the existing same-type
report rows plus one, zero-padded to four digits; the counter never
decreases when rows are appended to the report. -/
theorem claim_C9_sample_id_scheme :
    (∀ (pfx sample_type : String) (rows : List (List String)),
        get_new_sample_id pfx sample_type rows =
          "PS-" ++ pfx ++ "_" ++
            pad4 ((matching_sample_ids sample_type rows).toFinset.card + 1)) ∧
    (∀ (sample_type : String) (rows extra : List (List String)),
        (matching_sample_ids sample_type rows).toFinset.card ≤
          (matching_sample_ids sample_type (rows ++ extra)).toFinset.card) := by
  constructor
  · intro pfx sample_type rows
    rw [get_new_sample_id]
    rw [List.card_toFinset]
  · intro sample_type rows extra
    rw [matching_sample_ids, matching_sample_ids, List.filter_append, List.map_append,
      List.toFinset_append]
    exact Finset.card_le_card Finset.subset_union_left
